import Mathlib

/-!
Verification of `download_api2_xls_fixed.py`: a script that fetches a JSON
payload from the Colombo Stock Exchange API, extracts a row list from it,
writes the rows as an `.xlsx` table and applies a cosmetic formatting pass.

The Python source is shallowly embedded below: JSON values become an
inductive `Json` type, Python dicts become association lists (first binding
wins on lookup, insertion order preserved on iteration), spreadsheet cells
become a `CellValue` sum type, and the effectful `main` becomes a pure
function from an abstract environment (HTTP statuses, parsed body, library
availability, current date) to a trace of its observable effects.
-/

set_option autoImplicit false

namespace XlsDownload

/-- A parsed JSON value.  Python's `json` module distinguishes `int` from
`float`; floats are modelled as rationals.  Objects are association lists:
Python dicts have unique keys and preserve insertion order, which lookup on
the first matching binding and in-order iteration both respect. -/
inductive Json where
  | null : Json
  | bool (b : Bool) : Json
  | int (n : Int) : Json
  | float (q : ℚ) : Json
  | str (s : String) : Json
  | arr (xs : List Json) : Json
  | obj (kvs : List (String × Json)) : Json
deriving Repr

/-- Python `payload.get(k)`: first binding for `k` in the dict, else `None`. -/
def dictGet (kvs : List (String × Json)) (k : String) : Option Json :=
  match kvs with
  | [] => none
  | (k', v) :: rest => if k' == k then some v else dictGet rest k

/-- The loop `for k in preferred_keys: v = payload.get(k); if isinstance(v, list): return v`
in `_extract_rows`. -/
def findPreferredList (kvs : List (String × Json)) : List String → Option (List Json)
  | [] => none
  | k :: ks =>
    match dictGet kvs k with
    | some (Json.arr v) => some v
    | _ => findPreferredList kvs ks

/-- The loop `for v in payload.values(): if isinstance(v, list): return v`
in `_extract_rows`. -/
def firstListValue : List (String × Json) → Option (List Json)
  | [] => none
  | (_, Json.arr v) :: _ => some v
  | _ :: rest => firstListValue rest

/-- The function `_extract_rows(payload, preferred_keys)` (source lines 17-35): a list is
returned unchanged; a dict is scanned first for a preferred key bound to a
list, then for its first list-typed value; anything else yields `[]`. -/
def extract_rows (payload : Json) (preferred_keys : List String) : List Json :=
  match payload with
  | Json.arr xs => xs
  | Json.obj kvs =>
    match findPreferredList kvs preferred_keys with
    | some v => v
    | none =>
      match firstListValue kvs with
      | some v => v
      | none => []
  | _ => []

/-- True exactly on JSON sequences. -/
def Json.isSeq : Json → Bool
  | Json.arr _ => true
  | _ => false

/-- The row extractor as the spec words it: return the payload if it is a
sequence; else, on a mapping, the value of the first candidate key (in list
order) whose value is a sequence; else the first sequence-valued entry in
iteration order; else the empty sequence.  Stated independently of
`extract_rows` so the two can be compared. -/
def extractRowsSpec (payload : Json) (candidate_keys : List String) : List Json :=
  match payload with
  | Json.arr xs => xs
  | Json.obj kvs =>
    match candidate_keys.findSome? (fun k =>
        match dictGet kvs k with
        | some (Json.arr v) => some v
        | _ => none) with
    | some v => v
    | none =>
      match (kvs.map Prod.snd).findSome? (fun j =>
          match j with
          | Json.arr v => some v
          | _ => none) with
      | some v => v
      | none => []
  | _ => []

theorem findPreferredList_eq_findSome (kvs : List (String × Json)) (ks : List String) :
    findPreferredList kvs ks =
      ks.findSome? (fun k =>
        match dictGet kvs k with
        | some (Json.arr v) => some v
        | _ => none) := by
  induction ks with
  | nil => rfl
  | cons k ks ih =>
    simp only [findPreferredList, List.findSome?]
    cases h : dictGet kvs k with
    | none => simp [h, ih]
    | some j => cases j <;> simp [h, ih]

theorem firstListValue_eq_findSome (kvs : List (String × Json)) :
    firstListValue kvs =
      (kvs.map Prod.snd).findSome? (fun j =>
        match j with
        | Json.arr v => some v
        | _ => none) := by
  induction kvs with
  | nil => rfl
  | cons p rest ih =>
    obtain ⟨k, v⟩ := p
    cases v <;> simp [firstListValue, List.findSome?, ih]

/-- Claim C1: on every JSON payload and candidate key list, `_extract_rows`
behaves exactly as specified: a sequence payload is returned unchanged; a
mapping yields the first candidate key's sequence value (scanning the keys
in order), else the first sequence-valued entry in iteration order, else the
empty sequence; any other payload yields the empty sequence. -/
theorem extract_rows_eq_spec (payload : Json) (keys : List String) :
    extract_rows payload keys = extractRowsSpec payload keys := by
  cases payload with
  | arr xs => rfl
  | obj kvs =>
    simp only [extract_rows, extractRowsSpec,
      findPreferredList_eq_findSome, firstListValue_eq_findSome]
  | null => rfl
  | bool b => rfl
  | int n => rfl
  | float q => rfl
  | str s => rfl

/-- Claim C10: the row extractor is total (it is a Lean function, so it can
raise nothing), a payload that is neither a sequence nor a mapping yields
the empty list, and a candidate key bound to a non-sequence value is
skipped: the result is the same as with that key removed from the list. -/
theorem extract_rows_total_and_skips (b : Bool) (n : Int) (q : ℚ) (s : String)
    (kvs : List (String × Json)) (k : String) (ks : List String)
    (hk : ∀ xs, dictGet kvs k ≠ some (Json.arr xs)) :
    extract_rows Json.null ks = [] ∧
    extract_rows (Json.bool b) ks = [] ∧
    extract_rows (Json.int n) ks = [] ∧
    extract_rows (Json.float q) ks = [] ∧
    extract_rows (Json.str s) ks = [] ∧
    extract_rows (Json.obj kvs) (k :: ks) = extract_rows (Json.obj kvs) ks := by
  have hstep : findPreferredList kvs (k :: ks) = findPreferredList kvs ks := by
    rw [findPreferredList]
    cases h : dictGet kvs k with
    | none => rfl
    | some j =>
      cases j with
      | arr xs => exact absurd h (hk xs)
      | null => rfl
      | bool b => rfl
      | int n => rfl
      | float q => rfl
      | str s => rfl
      | obj kvs => rfl
  exact ⟨rfl, rfl, rfl, rfl, rfl, by rw [extract_rows, extract_rows, hstep]⟩

/-- Witness for C10 at a concrete input: payload `{"data": 7, "rows": [1]}`
with candidate keys `["data", "rows"]`; `"data"` is bound to a non-sequence
and is skipped, and scalar payloads give `[]`. -/
theorem extract_rows_total_and_skips_witness :
    extract_rows Json.null ["rows"] = [] ∧
    extract_rows (Json.bool true) ["rows"] = [] ∧
    extract_rows (Json.int 7) ["rows"] = [] ∧
    extract_rows (Json.float 1) ["rows"] = [] ∧
    extract_rows (Json.str "x") ["rows"] = [] ∧
    extract_rows (Json.obj [("data", Json.int 7), ("rows", Json.arr [Json.int 1])])
        ["data", "rows"] =
      extract_rows (Json.obj [("data", Json.int 7), ("rows", Json.arr [Json.int 1])])
        ["rows"] :=
  extract_rows_total_and_skips true 7 1 "x"
    [("data", Json.int 7), ("rows", Json.arr [Json.int 1])] "data" ["rows"]
    (by intro xs h; simp [dictGet] at h)

/-! ## Cells, records and the table built by `pd.DataFrame(rows)` -/

/-- A spreadsheet cell value.  Python's `None`/pandas `NaN` (a missing
field) is `empty`; Python distinguishes `bool`, `int` and `float` (floats
modelled as rationals); everything else the script produces is text. -/
inductive CellValue where
  | empty : CellValue
  | bool (b : Bool) : CellValue
  | int (n : Int) : CellValue
  | float (q : ℚ) : CellValue
  | str (s : String) : CellValue
deriving Repr, DecidableEq

/-- A record: one JSON object of the extracted row list, as a dict from
field name to cell value (unique keys, insertion order preserved). -/
abbrev Record := List (String × CellValue)

/-- Dict lookup on a record (first binding wins). -/
def recGet (r : Record) (k : String) : Option CellValue :=
  match r with
  | [] => none
  | (k', v) :: rest => if k' == k then some v else recGet rest k

/-- The keys of a record, in insertion order. -/
def recordKeys (r : Record) : List String := r.map Prod.fst

/-- Append a key to the accumulated header if it is not already present. -/
def addKey (acc : List String) (k : String) : List String :=
  if acc.contains k then acc else acc ++ [k]

/-- Modelled from the spec: the column inference of `pandas.DataFrame` on a
list of dicts (source line 114, `pd.DataFrame(rows)`, code outside this
repository): the header is the union of all keys seen across all records,
in first-appearance order. -/
def headerOf (records : List Record) : List String :=
  records.foldl (fun acc r => (recordKeys r).foldl addKey acc) []

/-- Modelled from the spec: pandas row alignment and `df.to_excel` (source
lines 114-118, code outside this repository): each record's values are
aligned to the header; a field missing from a record is `NaN` in the frame
and an empty cell in the sheet. -/
def rowCells (header : List String) (r : Record) : List CellValue :=
  header.map (fun k => (recGet r k).getD CellValue.empty)

/-- The rectangular table written by `df.to_excel` (row 0 the header, no
index column). -/
structure Table where
  header : List String
  rows : List (List CellValue)
deriving Repr, DecidableEq

def buildTable (records : List Record) : Table :=
  { header := headerOf records
    rows := records.map (rowCells (headerOf records)) }

/-- Total cell accessor for stating theorems; the out-of-range default is
`int 0`, deliberately distinct from `empty`. -/
def cellAt (t : Table) (i j : Nat) : CellValue :=
  (t.rows.getD i []).getD j (CellValue.int 0)

/-- Keep the first occurrence of every element, preserving order.  This is
the specification-side reading of "ordered by first appearance". -/
def firstSeenDedup : List String → List String
  | [] => []
  | k :: rest => k :: (firstSeenDedup rest).filter (fun x => !(x == k))

theorem foldl_addKey_eq (l : List String) (acc : List String) :
    l.foldl addKey acc =
      acc ++ (firstSeenDedup l).filter (fun x => !(acc.contains x)) := by
  induction l generalizing acc with
  | nil => simp [firstSeenDedup]
  | cons k rest ih =>
    rw [List.foldl_cons, ih]
    simp only [addKey]
    by_cases hkm : k ∈ acc
    · have hk : acc.contains k = true := by simpa using hkm
      rw [if_pos hk]
      congr 1
      rw [firstSeenDedup, List.filter_cons]
      have hpk : (!(acc.contains k)) = false := by simp [hkm]
      rw [hpk]
      simp only [Bool.false_eq_true, if_false, List.filter_filter]
      refine List.filter_congr ?_
      intro x hx
      by_cases hxk : x = k
      · subst hxk; simp [hkm]
      · simp [hxk]
    · have hk : acc.contains k = false := by simpa using hkm
      rw [if_neg (by simpa using hkm)]
      rw [firstSeenDedup, List.filter_cons]
      have hpk : (!(acc.contains k)) = true := by simp [hkm]
      rw [hpk]
      simp only [if_true, List.filter_filter, List.append_assoc,
        List.singleton_append]
      congr 1
      congr 1
      refine List.filter_congr ?_
      intro x hx
      by_cases hxk : x = k
      · subst hxk; simp
      · simp [hxk, Bool.and_comm]

theorem headerOf_eq_firstSeenDedup (records : List Record) :
    headerOf records = firstSeenDedup ((records.map recordKeys).flatten) := by
  have fusion : ∀ (rs : List Record) (acc : List String),
      rs.foldl (fun acc r => (recordKeys r).foldl addKey acc) acc =
        ((rs.map recordKeys).flatten).foldl addKey acc := by
    intro rs
    induction rs with
    | nil => intro acc; rfl
    | cons r rest ih =>
      intro acc
      simp [List.foldl_append, ih]
  have := foldl_addKey_eq ((records.map recordKeys).flatten) []
  simpa [headerOf, fusion] using this

theorem mem_firstSeenDedup (x : String) (l : List String) :
    x ∈ firstSeenDedup l ↔ x ∈ l := by
  induction l with
  | nil => simp [firstSeenDedup]
  | cons k rest ih =>
    by_cases hx : x = k
    · subst hx; simp [firstSeenDedup]
    · simp [firstSeenDedup, hx, ih]

theorem nodup_firstSeenDedup (l : List String) : (firstSeenDedup l).Nodup := by
  induction l with
  | nil => simp [firstSeenDedup]
  | cons k rest ih =>
    refine List.Nodup.cons ?_ (List.Nodup.filter _ ih)
    intro hmem
    have := List.of_mem_filter hmem
    simp at this

/-- Claim C6: the table header is the union of all keys across all records
in first-appearance order (stated three ways: equality with a
first-occurrence dedup of the concatenated key lists, the membership
characterisation, and duplicate-freeness); there is one table row per
record; a record missing a column yields an empty cell there; and on the
records `{a:1, b:2}` and `{b:3, c:4}` the header is `[a, b, c]` with the
second row's `a` cell empty. -/
theorem buildTable_header_and_missing_cells (records : List Record) (i j : Nat)
    (hi : i < records.length) (hj : j < (buildTable records).header.length) :
    (buildTable records).header = firstSeenDedup ((records.map recordKeys).flatten) ∧
    (∀ k, k ∈ (buildTable records).header ↔ ∃ r ∈ records, k ∈ recordKeys r) ∧
    (buildTable records).header.Nodup ∧
    (buildTable records).rows.length = records.length ∧
    (recGet (records.getD i []) ((buildTable records).header.getD j "") = none →
      cellAt (buildTable records) i j = CellValue.empty) ∧
    buildTable [[("a", CellValue.int 1), ("b", CellValue.int 2)],
                [("b", CellValue.int 3), ("c", CellValue.int 4)]] =
      { header := ["a", "b", "c"],
        rows := [[CellValue.int 1, CellValue.int 2, CellValue.empty],
                 [CellValue.empty, CellValue.int 3, CellValue.int 4]] } := by
  refine ⟨headerOf_eq_firstSeenDedup records, ?_, ?_, ?_, ?_, by rfl⟩
  · intro k
    rw [show (buildTable records).header = headerOf records from rfl,
      headerOf_eq_firstSeenDedup, mem_firstSeenDedup]
    simp [List.mem_flatten, recordKeys]
  · rw [show (buildTable records).header = headerOf records from rfl,
      headerOf_eq_firstSeenDedup]
    exact nodup_firstSeenDedup _
  · simp [buildTable]
  · intro hnone
    have hrows : (buildTable records).rows = records.map (rowCells (headerOf records)) := rfl
    have hrow : (buildTable records).rows.getD i [] =
        rowCells (headerOf records) (records.getD i []) := by
      rw [hrows, List.getD_eq_getElem?_getD, List.getD_eq_getElem?_getD,
        List.getElem?_map]
      cases h : records[i]? with
      | none =>
        exact absurd (List.getElem?_eq_none_iff.mp h) (Nat.not_le_of_lt hi)
      | some r => rfl
    have hhead : j < (headerOf records).length := hj
    rw [cellAt, hrow, rowCells, List.getD_eq_getElem?_getD, List.getElem?_map]
    cases h : (headerOf records)[j]? with
    | none =>
      exact absurd (List.getElem?_eq_none_iff.mp h) (Nat.not_le_of_lt hhead)
    | some k =>
      have hk : (buildTable records).header.getD j "" = k := by
        rw [show (buildTable records).header = headerOf records from rfl,
          List.getD_eq_getElem?_getD, h]
        rfl
      rw [hk] at hnone
      rw [List.getD_eq_getElem?_getD] at hnone
      simp [hnone]

/-- Witness for C6 at the records `{a:1, b:2}` and `{b:3, c:4}`, row 1,
column 0: the bounds hold, the second record has no `a` binding, and the
corresponding cell is empty. -/
theorem buildTable_header_and_missing_cells_witness :
    cellAt (buildTable [[("a", CellValue.int 1), ("b", CellValue.int 2)],
                        [("b", CellValue.int 3), ("c", CellValue.int 4)]]) 1 0 =
      CellValue.empty :=
  (buildTable_header_and_missing_cells
    [[("a", CellValue.int 1), ("b", CellValue.int 2)],
     [("b", CellValue.int 3), ("c", CellValue.int 4)]] 1 0
    (by decide) (by decide)).2.2.2.2.1 (by decide)

/-! ## The formatting pass `_prettify_excel` -/

def isDigit (c : Char) : Bool := '0' ≤ c && c ≤ '9'

/-- Lowercase one character (the script's column names are ASCII, which is
all Python's `str.lower()` meets here). -/
def lowerChar (c : Char) : Char :=
  if 'A' ≤ c && c ≤ 'Z' then Char.ofNat (c.toNat + 32) else c

/-- Python `str.lower()`. -/
def pyLower (s : String) : String := String.mk (s.data.map lowerChar)

def isSpaceChar (c : Char) : Bool := c == ' ' || c == '\t' || c == '\n' || c == '\r'

/-- The whitespace stripping Python's `float(str)` performs. -/
def pyStrip (s : String) : String :=
  String.mk (((s.data.dropWhile isSpaceChar).reverse.dropWhile isSpaceChar).reverse)

def digitsToNat (l : List Char) : Nat :=
  l.foldl (fun n c => 10 * n + (c.toNat - 48)) 0

/-- Exponent part of a Python float literal, after the `e`/`E`. -/
def parseExpPart (mant : ℚ) (cs : List Char) : Option ℚ :=
  let p :=
    match cs with
    | '-' :: r => (true, r)
    | '+' :: r => (false, r)
    | _ => (false, cs)
  let q := p.2.span isDigit
  if q.1.isEmpty || !q.2.isEmpty then none
  else some (if p.1 then mant / 10 ^ digitsToNat q.1 else mant * 10 ^ digitsToNat q.1)

/-- Python's `float(str)` builtin on the strings this script can meet:
optional surrounding whitespace, an optional sign, decimal digits with an
optional fractional part and exponent.  (`inf`, `nan` and underscore digit
separators are accepted by Python but never produced by this pipeline and
are not modelled.) -/
def parsePyFloat (s : String) : Option ℚ :=
  let cs := (pyStrip s).data
  let p :=
    match cs with
    | '-' :: r => (true, r)
    | '+' :: r => (false, r)
    | _ => (false, cs)
  let ipr := p.2.span isDigit
  let fpr :=
    match ipr.2 with
    | '.' :: r => r.span isDigit
    | _ => ([], ipr.2)
  if ipr.1.isEmpty && fpr.1.isEmpty then none
  else
    let mant : ℚ := (digitsToNat (ipr.1 ++ fpr.1) : ℚ) / (10 : ℚ) ^ fpr.1.length
    let mant := if p.1 then -mant else mant
    match fpr.2 with
    | [] => some mant
    | 'e' :: r => parseExpPart mant r
    | 'E' :: r => parseExpPart mant r
    | _ => none

/-- Python `float(x)` on a cell value: ints, floats and booleans convert
(`True` is `1.0`), strings are parsed, anything else raises (`none`). -/
def tryFloat : CellValue → Option ℚ
  | CellValue.int n => some (n : ℚ)
  | CellValue.float q => some q
  | CellValue.bool b => some (if b then 1 else 0)
  | CellValue.str s => parsePyFloat s
  | CellValue.empty => none

/-- Decimal digits of the fractional part `r / den` by long division, with
fuel bounding the number of digits. -/
def fracDigits (den : Nat) : Nat → Nat → List Char
  | _, 0 => []
  | r, fuel + 1 =>
    if r = 0 then []
    else Char.ofNat (48 + r * 10 / den) :: fracDigits den (r * 10 % den) fuel

/-- Python's `str()` of a float, for the decimally-representable rationals
this model manipulates: sign, integer part, a dot, fractional digits (`.0`
when integral).  Shortest-roundtrip binary float printing is not modelled;
every theorem below is parametric in this rendering. -/
def floatStr (q : ℚ) : String :=
  let sign := if q < 0 then "-" else ""
  let n := q.num.natAbs
  let d := q.den
  let frac := fracDigits d (n % d) 17
  sign ++ toString (n / d) ++ "." ++ (if frac.isEmpty then "0" else String.mk frac)

/-- Python `str()` of a cell value, as used by the width scan (`None` cells
never reach it — the loop skips them first). -/
def pyStr : CellValue → String
  | CellValue.empty => "None"
  | CellValue.bool b => if b then "True" else "False"
  | CellValue.int n => toString n
  | CellValue.float q => floatStr q
  | CellValue.str s => s

/-- An openpyxl cell: its stored value and its display number format. -/
structure Cell where
  value : CellValue
  numberFormat : String
deriving Repr, DecidableEq

/-- The default cell used for out-of-range access in statements; chosen
distinct from anything the pipeline writes. -/
def dfltCell : Cell := { value := CellValue.int 0, numberFormat := "none" }

/-- The worksheet content and formatting state the script manipulates:
row 1 (the header), the data rows, the per-column widths, and the header
style / freeze / filter flags set by the formatting pass. -/
structure Worksheet where
  header : List Cell
  rows : List (List Cell)
  colWidths : List Nat
  headerStyled : Bool
  freezeCell : Option String
  autoFiltered : Bool
deriving Repr, DecidableEq

/-- Modelled from the spec: `df.to_excel(out_path, index=False, engine="openpyxl")`
(source line 118, pandas code outside this repository) writes the table
with row 0 the header, no index column, default formats and no styling. -/
def tableToWorksheet (t : Table) : Worksheet :=
  { header := t.header.map (fun k => { value := CellValue.str k, numberFormat := "General" })
    rows := t.rows.map (fun row => row.map (fun v => { value := v, numberFormat := "General" }))
    colWidths := []
    headerStyled := false
    freezeCell := none
    autoFiltered := false }

/-- The data cells of column `j`, top to bottom. -/
def wsDataColumn (ws : Worksheet) (j : Nat) : List Cell :=
  ws.rows.map (fun row => row.getD j dfltCell)

/-- The openpyxl `ws.columns` view of column `j`: the header cell first, then the
data cells. -/
def wsColumn (ws : Worksheet) (j : Nat) : List Cell :=
  ws.header.getD j dfltCell :: wsDataColumn ws j

/-- One iteration of the width scan (source lines 59-65): `None` values
are skipped, otherwise the running maximum is updated with `len(str(val))`. -/
def widthScanStep (m : Nat) (c : Cell) : Nat :=
  match c.value with
  | CellValue.empty => m
  | v => if (pyStr v).length > m then (pyStr v).length else m

/-- The width computation of `_prettify_excel` (source lines 57-67): scan
`col_cells[:2000]` — the first 2000 cells of the column, a slice that
begins at the header cell — skip `None` values, take the longest `str()`,
add 2 and clamp to `[10, 45]`. -/
def colWidth (cells : List Cell) : Nat :=
  min (max 10 ((cells.take 2000).foldl widthScanStep 0 + 2)) 45

/-- The per-cell body of the number-format loop (source lines 76-93): a
`None` value is skipped; in a percent column the value is divided by 100
and given the two-decimal percent format when `float()` succeeds, and left
alone when it raises; elsewhere ints (Python `bool` included — it is an
`int` subclass) get the thousands format and floats the two-decimal
thousands format. -/
def fmtCell (isPercent : Bool) (c : Cell) : Cell :=
  match c.value with
  | CellValue.empty => c
  | v =>
    if isPercent then
      match tryFloat v with
      | some q => { value := CellValue.float (q / 100), numberFormat := "0.00%" }
      | none => c
    else
      match v with
      | CellValue.int _ => { c with numberFormat := "#,##0" }
      | CellValue.bool _ => { c with numberFormat := "#,##0" }
      | CellValue.float _ => { c with numberFormat := "#,##0.00" }
      | _ => c

/-- One column of the number-format loop: `name = header[col_idx]`; a
`None` header name skips the whole column, otherwise the column is a
percent column when `str(name)` is in `percent_cols`. -/
def fmtColumn (percent_cols : List String) (headerCell : Cell) (c : Cell) : Cell :=
  match headerCell.value with
  | CellValue.empty => c
  | hv => fmtCell (percent_cols.contains (pyStr hv)) c

/-- The function `_prettify_excel(path, percent_cols)` (source lines 38-95) as a
worksheet transformer (the `load_workbook`/`save` round-trip through `path`
is content-preserving).  When openpyxl failed to import, the function
returns at once and the sheet is untouched. -/
def prettify_excel (openpyxlAvailable : Bool) (ws : Worksheet)
    (percent_cols : List String) : Worksheet :=
  if !openpyxlAvailable then ws
  else
    { header := ws.header
      rows := ws.rows.map (fun row => List.zipWith (fmtColumn percent_cols) ws.header row)
      colWidths := (List.range ws.header.length).map (fun j => colWidth (wsColumn ws j))
      headerStyled := true
      freezeCell := some "A2"
      autoFiltered := true }

/-- The percent-column synonym list of `main` (source line 120). -/
def percentSynonyms : List String :=
  ["changepercentage", "change_percentage", "changepercent", "change_pct"]

/-- The comprehension `percent_cols = [c for c in df.columns if str(c).lower() in [...]]`
(source line 120). -/
def percentColsOf (header : List String) : List String :=
  header.filter (fun c => percentSynonyms.contains (pyLower c))

/-- The worksheet written by the construction phase of `main` (lines 114-118). -/
def dfWorksheet (records : List Record) : Worksheet :=
  tableToWorksheet (buildTable records)

/-- The worksheet after the formatting pass of `main` (lines 120-121), with
openpyxl present. -/
def formattedWorksheet (records : List Record) : Worksheet :=
  prettify_excel true (dfWorksheet records) (percentColsOf (buildTable records).header)

/-- Total cell accessor on a worksheet's data rows. -/
def wsCellAt (ws : Worksheet) (i j : Nat) : Cell :=
  (ws.rows.getD i []).getD j dfltCell

/-! ## Indexing lemmas for the pipeline -/

theorem getD_map {α β : Type} (f : α → β) (l : List α) (i : Nat) (d : β) (d' : α)
    (h : i < l.length) : (l.map f).getD i d = f (l.getD i d') := by
  rw [List.getD_eq_getElem?_getD, List.getD_eq_getElem?_getD, List.getElem?_map]
  cases hh : l[i]? with
  | none => exact absurd (List.getElem?_eq_none_iff.mp hh) (Nat.not_le_of_lt h)
  | some a => rfl

theorem getD_zipWith {α β γ : Type} (f : α → β → γ) (as : List α) (bs : List β)
    (j : Nat) (da : α) (db : β) (dc : γ) (h1 : j < as.length) (h2 : j < bs.length) :
    (List.zipWith f as bs).getD j dc = f (as.getD j da) (bs.getD j db) := by
  rw [List.getD_eq_getElem?_getD, List.getD_eq_getElem?_getD, List.getD_eq_getElem?_getD,
    List.getElem?_zipWith]
  cases ha : as[j]? with
  | none => exact absurd (List.getElem?_eq_none_iff.mp ha) (Nat.not_le_of_lt h1)
  | some a =>
    cases hb : bs[j]? with
    | none => exact absurd (List.getElem?_eq_none_iff.mp hb) (Nat.not_le_of_lt h2)
    | some b => rfl

theorem buildTable_row (records : List Record) (i : Nat) (hi : i < records.length) :
    (buildTable records).rows.getD i [] = rowCells (headerOf records) (records.getD i []) :=
  getD_map (rowCells (headerOf records)) records i [] [] hi

theorem cellAt_buildTable (records : List Record) (i j : Nat)
    (hi : i < records.length) (hj : j < (buildTable records).header.length) :
    cellAt (buildTable records) i j =
      (recGet (records.getD i []) ((buildTable records).header.getD j "")).getD
        CellValue.empty := by
  rw [cellAt, buildTable_row records i hi, rowCells]
  exact getD_map _ _ j (CellValue.int 0) "" hj

theorem dfWorksheet_rows_getD (records : List Record) (i : Nat)
    (hi : i < records.length) :
    (dfWorksheet records).rows.getD i [] =
      ((buildTable records).rows.getD i []).map
        (fun v => { value := v, numberFormat := "General" }) := by
  refine getD_map _ _ i [] [] ?_
  simpa [buildTable] using hi

theorem dfWorksheet_row_length (records : List Record) (i : Nat)
    (hi : i < records.length) :
    ((dfWorksheet records).rows.getD i []).length = (buildTable records).header.length := by
  rw [dfWorksheet_rows_getD records i hi, buildTable_row records i hi]
  simp [rowCells, buildTable]

theorem dfWorksheet_cell (records : List Record) (i j : Nat)
    (hi : i < records.length) (hj : j < (buildTable records).header.length) :
    wsCellAt (dfWorksheet records) i j =
      { value := cellAt (buildTable records) i j, numberFormat := "General" } := by
  rw [wsCellAt, dfWorksheet_rows_getD records i hi, cellAt]
  refine getD_map _ _ j dfltCell (CellValue.int 0) ?_
  rw [buildTable_row records i hi]
  simpa [rowCells] using hj

theorem dfWorksheet_header_getD (records : List Record) (j : Nat)
    (hj : j < (buildTable records).header.length) :
    (dfWorksheet records).header.getD j dfltCell =
      { value := CellValue.str ((buildTable records).header.getD j ""),
        numberFormat := "General" } :=
  getD_map _ _ j dfltCell "" hj

theorem formatted_cell (records : List Record) (i j : Nat) (pcols : List String)
    (hi : i < records.length) (hj : j < (buildTable records).header.length) :
    wsCellAt (prettify_excel true (dfWorksheet records) pcols) i j =
      fmtColumn pcols ((dfWorksheet records).header.getD j dfltCell)
        (wsCellAt (dfWorksheet records) i j) := by
  have hrl : i < (dfWorksheet records).rows.length := by
    simpa [dfWorksheet, tableToWorksheet, buildTable] using hi
  have hhl : j < (dfWorksheet records).header.length := by
    simpa [dfWorksheet, tableToWorksheet] using hj
  have hjr : j < ((dfWorksheet records).rows.getD i []).length := by
    rw [dfWorksheet_row_length records i hi]
    exact hj
  show ((prettify_excel true (dfWorksheet records) pcols).rows.getD i []).getD j dfltCell = _
  have hrows : (prettify_excel true (dfWorksheet records) pcols).rows =
      (dfWorksheet records).rows.map
        (fun row => List.zipWith (fmtColumn pcols) (dfWorksheet records).header row) := rfl
  rw [hrows, getD_map _ _ i [] [] hrl,
    getD_zipWith (fmtColumn pcols) _ _ j dfltCell dfltCell dfltCell hhl hjr]
  rfl

theorem contains_percentColsOf (header : List String) (k : String) (hk : k ∈ header) :
    (percentColsOf header).contains k = percentSynonyms.contains (pyLower k) := by
  cases h : percentSynonyms.contains (pyLower k) with
  | false =>
    have hnot : k ∉ percentColsOf header := by
      intro hmem
      have := List.of_mem_filter hmem
      rw [h] at this
      exact Bool.noConfusion this
    simp [hnot]
  | true =>
    have hmem : k ∈ percentColsOf header := List.mem_filter.mpr ⟨hk, h⟩
    simp [hmem]

theorem header_getD_mem (records : List Record) (j : Nat)
    (hj : j < (buildTable records).header.length) :
    (buildTable records).header.getD j "" ∈ (buildTable records).header := by
  rw [List.getD_eq_getElem?_getD, List.getElem?_eq_getElem hj]
  exact List.getElem_mem hj

theorem fmtCell_percent_some (c : Cell) (q : ℚ) (hq : tryFloat c.value = some q) :
    fmtCell true c = { value := CellValue.float (q / 100), numberFormat := "0.00%" } := by
  obtain ⟨v, nf⟩ := c
  cases v with
  | empty => exact absurd hq (by simp [tryFloat])
  | bool b =>
    simp only [tryFloat] at hq
    simp [fmtCell, tryFloat, hq]
  | int n =>
    simp only [tryFloat] at hq
    simp [fmtCell, tryFloat, hq]
  | float x =>
    simp only [tryFloat, Option.some.injEq] at hq
    simp [fmtCell, tryFloat, hq]
  | str s =>
    simp only [tryFloat] at hq
    simp [fmtCell, tryFloat, hq]

theorem fmtCell_percent_none (c : Cell) (hq : tryFloat c.value = none) :
    fmtCell true c = c := by
  obtain ⟨v, nf⟩ := c
  cases v with
  | empty => rfl
  | bool b => exact absurd hq (by simp [tryFloat])
  | int n => exact absurd hq (by simp [tryFloat])
  | float x => exact absurd hq (by simp [tryFloat])
  | str s =>
    simp only [tryFloat] at hq
    simp [fmtCell, tryFloat, hq]

theorem fmtCell_not_percent_value (c : Cell) : (fmtCell false c).value = c.value := by
  obtain ⟨v, nf⟩ := c
  cases v <;> rfl

/-- Claim C4: in every column whose header name case-insensitively matches
one of the percent synonyms, the formatting pass rewrites each populated
data cell that `float()` can convert to the converted value divided by 100
with the two-decimal percentage format, and leaves a non-convertible value
exactly as stored, raising nothing. -/
theorem percent_column_transform (records : List Record) (i j : Nat)
    (hi : i < records.length) (hj : j < (buildTable records).header.length)
    (hsyn : percentSynonyms.contains (pyLower ((buildTable records).header.getD j "")) = true) :
    (∀ q, tryFloat (cellAt (buildTable records) i j) = some q →
        wsCellAt (formattedWorksheet records) i j =
          { value := CellValue.float (q / 100), numberFormat := "0.00%" }) ∧
    (tryFloat (cellAt (buildTable records) i j) = none →
        wsCellAt (formattedWorksheet records) i j =
          { value := cellAt (buildTable records) i j, numberFormat := "General" }) := by
  have hpc : (percentColsOf (buildTable records).header).contains
      ((buildTable records).header.getD j "") = true := by
    rw [contains_percentColsOf _ _ (header_getD_mem records j hj)]
    exact hsyn
  have hfmt : wsCellAt (formattedWorksheet records) i j =
      fmtCell true { value := cellAt (buildTable records) i j, numberFormat := "General" } := by
    rw [show formattedWorksheet records =
        prettify_excel true (dfWorksheet records) (percentColsOf (buildTable records).header)
        from rfl,
      formatted_cell records i j _ hi hj, dfWorksheet_header_getD records j hj,
      dfWorksheet_cell records i j hi hj]
    show fmtCell ((percentColsOf (buildTable records).header).contains
        (pyStr (CellValue.str ((buildTable records).header.getD j "")))) _ = _
    rw [show pyStr (CellValue.str ((buildTable records).header.getD j "")) =
        (buildTable records).header.getD j "" from rfl, hpc]
  constructor
  · intro q hq
    rw [hfmt]
    exact fmtCell_percent_some _ q hq
  · intro hq
    rw [hfmt]
    exact fmtCell_percent_none _ hq

/-- Witness for C4: one record with column `changePercentage` holding the
number `-7.97`; the formatted sheet stores `-7.97 / 100` with format `0.00%`. -/
theorem percent_column_transform_witness :
    wsCellAt (formattedWorksheet [[("changePercentage", CellValue.float ((-797 : ℚ) / 100))]]) 0 0 =
      { value := CellValue.float ((-797 : ℚ) / 100 / 100), numberFormat := "0.00%" } :=
  (percent_column_transform [[("changePercentage", CellValue.float ((-797 : ℚ) / 100))]] 0 0
    (by decide) (by decide) (by decide)).1 ((-797 : ℚ) / 100) rfl

/-- Claim C8: there is exactly one data row per extracted record, and in a
column whose header does not match a percent synonym the formatting pass
never changes the stored value: the final stored cell equals the original
record's value for that column (absent fields giving the empty cell). -/
theorem row_count_and_nonpercent_values (records : List Record) (i j : Nat)
    (hi : i < records.length) (hj : j < (buildTable records).header.length)
    (hnp : percentSynonyms.contains (pyLower ((buildTable records).header.getD j "")) = false) :
    (formattedWorksheet records).rows.length = records.length ∧
    (wsCellAt (formattedWorksheet records) i j).value =
      (recGet (records.getD i []) ((buildTable records).header.getD j "")).getD
        CellValue.empty := by
  constructor
  · simp [formattedWorksheet, prettify_excel, dfWorksheet, tableToWorksheet, buildTable]
  · have hpc : (percentColsOf (buildTable records).header).contains
        ((buildTable records).header.getD j "") = false := by
      rw [contains_percentColsOf _ _ (header_getD_mem records j hj)]
      exact hnp
    have hfmt : wsCellAt (formattedWorksheet records) i j =
        fmtCell false
          { value := cellAt (buildTable records) i j, numberFormat := "General" } := by
      rw [show formattedWorksheet records =
          prettify_excel true (dfWorksheet records) (percentColsOf (buildTable records).header)
          from rfl,
        formatted_cell records i j _ hi hj, dfWorksheet_header_getD records j hj,
        dfWorksheet_cell records i j hi hj]
      show fmtCell ((percentColsOf (buildTable records).header).contains
          (pyStr (CellValue.str ((buildTable records).header.getD j "")))) _ = _
      rw [show pyStr (CellValue.str ((buildTable records).header.getD j "")) =
          (buildTable records).header.getD j "" from rfl, hpc]
    rw [hfmt, fmtCell_not_percent_value]
    exact cellAt_buildTable records i j hi hj

/-- Witness for C8: one record with the non-percent column `symbol` valued
`ABC`; the formatted sheet's cell still stores the original record value. -/
theorem row_count_and_nonpercent_values_witness :
    (wsCellAt (formattedWorksheet [[("symbol", CellValue.str "ABC")]]) 0 0).value =
      (recGet ([[("symbol", CellValue.str "ABC")]].getD 0 [])
        ((buildTable [[("symbol", CellValue.str "ABC")]]).header.getD 0 "")).getD
        CellValue.empty :=
  (row_count_and_nonpercent_values [[("symbol", CellValue.str "ABC")]] 0 0
    (by decide) (by decide) (by decide)).2

/-! ## Column widths (claim C7) -/

/-- The length `len(str(val))` of a populated cell, `none` for `None`. -/
def cellTextLen (c : Cell) : Option Nat :=
  match c.value with
  | CellValue.empty => none
  | v => some (pyStr v).length

/-- The width rule exactly as claim C7 words it: `L` ranges over the
non-empty cells of at most the first 2000 DATA rows of the column — the
header cell is excluded. -/
def colWidthClaimed (ws : Worksheet) (j : Nat) : Nat :=
  min (max 10 ((((wsDataColumn ws j).take 2000).filterMap cellTextLen).foldr max 0 + 2)) 45

theorem if_gt_eq_max (L m : Nat) : (if L > m then L else m) = Nat.max m L := by
  split_ifs with h
  · exact (Nat.max_eq_right h.le).symm
  · exact (Nat.max_eq_left (Nat.not_lt.mp h)).symm

theorem widthScanStep_eq (m : Nat) (c : Cell) :
    widthScanStep m c = max m ((cellTextLen c).getD 0) := by
  obtain ⟨v, nf⟩ := c
  cases v with
  | empty => exact (Nat.max_zero m).symm
  | bool b => exact if_gt_eq_max _ _
  | int n => exact if_gt_eq_max _ _
  | float q => exact if_gt_eq_max _ _
  | str s => exact if_gt_eq_max _ _

theorem foldl_widthScanStep (l : List Cell) :
    ∀ m : Nat, l.foldl widthScanStep m =
      max m ((l.filterMap cellTextLen).foldr max 0) := by
  induction l with
  | nil => intro m; simp
  | cons c rest ih =>
    intro m
    rw [List.foldl_cons, widthScanStep_eq, ih, List.filterMap_cons]
    cases h : cellTextLen c with
    | none => simp
    | some L =>
      simp only [Option.getD_some, List.foldr_cons]
      omega

theorem colWidth_eq (cells : List Cell) :
    colWidth cells =
      min (max 10 (((cells.take 2000).filterMap cellTextLen).foldr max 0 + 2)) 45 := by
  rw [colWidth, foldl_widthScanStep]
  omega

/-- Counterexample to claim C7 as stated: the one-column table whose header
`aVeryLongColumnHeaderName` is 25 characters and whose only data cell is
`abc` (3 characters).  The code computes width 27, because the scanned
slice `col_cells[:2000]` starts at the header cell; the claimed rule over
data rows alone would give width 10. -/
theorem column_width_counterexample :
    (prettify_excel true (dfWorksheet [[("aVeryLongColumnHeaderName", CellValue.str "abc")]])
        []).colWidths.getD 0 0 = 27 ∧
    colWidthClaimed (dfWorksheet [[("aVeryLongColumnHeaderName", CellValue.str "abc")]]) 0 = 10 ∧
    ¬ ((prettify_excel true (dfWorksheet [[("aVeryLongColumnHeaderName", CellValue.str "abc")]])
        []).colWidths.getD 0 0 =
      colWidthClaimed (dfWorksheet [[("aVeryLongColumnHeaderName", CellValue.str "abc")]]) 0) :=
  ⟨by decide, by decide, by decide⟩

/-- Claim C7 amended: the formatting pass sets every column's width to
`min(max(10, L + 2), 45)` where `L` is the longest `str()` of the non-empty
values among the first 2000 cells of the column INCLUDING the header cell —
that is, the header and at most the first 1999 data rows. -/
theorem column_widths_amended (ws : Worksheet) (pcols : List String) :
    (prettify_excel true ws pcols).colWidths =
      (List.range ws.header.length).map (fun j =>
        min (max 10 ((((wsColumn ws j).take 2000).filterMap cellTextLen).foldr max 0 + 2))
          45) := by
  show (List.range ws.header.length).map (fun j => colWidth (wsColumn ws j)) = _
  exact List.map_congr_left (fun j _ => colWidth_eq _)

/-! ## The driver `main` (source lines 100-123) -/

/-- An outbound HTTP request as `main` issues it: method, URL, form body
(`data={}` sends an empty body; the GET sends none) and timeout seconds. -/
structure HttpRequest where
  method : String
  url : String
  body : Option String
  timeout : Nat
deriving Repr, DecidableEq

def OUT_DIR : String := "data"

def API_URL : String := "https://www.cse.lk/api/detailedTrades"

/-- The call `requests.post(API_URL, data={}, timeout=30)` (source line 103). -/
def postRequest : HttpRequest :=
  { method := "POST", url := API_URL, body := some "", timeout := 30 }

/-- The call `requests.get(API_URL, timeout=30)` (source line 105). -/
def getRequest : HttpRequest :=
  { method := "GET", url := API_URL, body := none, timeout := 30 }

/-- The method `requests.Response.raise_for_status()` raises exactly for the client
and server error classes, `400 ≤ status < 600`. -/
def raiseForStatus (s : Nat) : Bool := 400 ≤ s && s < 600

/-- Modelled from the spec: a "success status" in claim C2's sense, read
as the standard HTTP success class 2xx. -/
def isSuccessStatus (s : Nat) : Bool := 200 ≤ s && s < 300

/-- A cell value from a JSON scalar.  (The API's rows hold scalars; a
nested container inside a cell would make `to_excel` raise and is outside
the model.) -/
def jsonToCell : Json → CellValue
  | Json.null => CellValue.empty
  | Json.bool b => CellValue.bool b
  | Json.int n => CellValue.int n
  | Json.float q => CellValue.float q
  | Json.str s => CellValue.str s
  | Json.arr _ => CellValue.empty
  | Json.obj _ => CellValue.empty

/-- One extracted row as a record (the API's rows are JSON objects; a
non-object row contributes no fields). -/
def jsonToRecord : Json → Record
  | Json.obj kvs => kvs.map (fun p => (p.1, jsonToCell p.2))
  | _ => []

/-- The fatal conditions of one run: TransportError (`raise_for_status`),
ParseError (`r.json()`), DataShapeError (the explicit `RuntimeError` for an
empty row list), and the ImportError pandas raises when `to_excel` is asked
for the `openpyxl` engine while openpyxl is missing. -/
inductive RunError where
  | transport : RunError
  | parse : RunError
  | noRows : RunError
  | importError : RunError
deriving Repr, DecidableEq

/-- The abstract environment of one run: the statuses the server would
answer to the POST and to the GET (the latter consulted only if the GET is
sent), the parsed JSON body (`none` when the body is not valid JSON),
whether `import openpyxl` succeeded at startup, and today's date string. -/
structure Env where
  postStatus : Nat
  getStatus : Nat
  body : Option Json
  openpyxlAvailable : Bool
  today : String
deriving Repr

/-- The observable effects of one run of `main`: directories created,
requests issued, files present on disk afterwards (path and final
content), lines printed, and the fatal error if one was raised. -/
structure RunOutcome where
  dirsCreated : List String
  requests : List HttpRequest
  files : List (String × Worksheet)
  printed : List String
  error : Option RunError
deriving Repr

/-- The preferred keys `main` passes to the extractor (source line 109). -/
def preferred_keys : List String := ["detailedTrades", "reqDetailedTrades", "data"]

/-- The output path `os.path.join(OUT_DIR, f"cse_detailed_trades_{today}.xlsx")` (line 117). -/
def outPath (today : String) : String :=
  OUT_DIR ++ "/cse_detailed_trades_" ++ today ++ ".xlsx"

/-- The driver `main()` (source lines 100-123) as a pure function of the environment:
`os.makedirs(OUT_DIR, exist_ok=True)` runs first; the POST is always
issued and the GET follows exactly when the POST status is not 200;
`raise_for_status` on the final response decides the TransportError; the
body is parsed; the extracted rows' emptiness raises the DataShapeError;
`df.to_excel(out_path, index=False, engine="openpyxl")` raises the
ImportError when openpyxl is unavailable (pandas' documented behaviour for
an explicitly requested engine) and otherwise writes the sheet, which
`_prettify_excel` then rewrites in place at the same path. -/
def runMain (env : Env) : RunOutcome :=
  let reqs := if env.postStatus != 200 then [postRequest, getRequest] else [postRequest]
  let finalStatus := if env.postStatus != 200 then env.getStatus else env.postStatus
  if raiseForStatus finalStatus then
    { dirsCreated := [OUT_DIR], requests := reqs, files := [], printed := [],
      error := some RunError.transport }
  else
    match env.body with
    | none =>
      { dirsCreated := [OUT_DIR], requests := reqs, files := [], printed := [],
        error := some RunError.parse }
    | some payload =>
      let rows := extract_rows payload preferred_keys
      if rows.isEmpty then
        { dirsCreated := [OUT_DIR], requests := reqs, files := [], printed := [],
          error := some RunError.noRows }
      else if !env.openpyxlAvailable then
        { dirsCreated := [OUT_DIR], requests := reqs, files := [], printed := [],
          error := some RunError.importError }
      else
        let records := rows.map jsonToRecord
        let t := buildTable records
        let ws := prettify_excel env.openpyxlAvailable (tableToWorksheet t)
          (percentColsOf t.header)
        { dirsCreated := [OUT_DIR], requests := reqs,
          files := [(outPath env.today, ws)],
          printed := ["Saved: " ++ outPath env.today ++ " rows: " ++ toString records.length],
          error := none }


theorem runMain_dirsCreated (env : Env) : (runMain env).dirsCreated = [OUT_DIR] := by
  simp only [runMain]
  repeat' split
  all_goals rfl

theorem runMain_requests (env : Env) :
    (runMain env).requests =
      if env.postStatus != 200 then [postRequest, getRequest] else [postRequest] := by
  simp only [runMain]
  repeat' split
  all_goals rfl

theorem runMain_error_transport (env : Env) :
    (runMain env).error = some RunError.transport ↔
      raiseForStatus (if env.postStatus != 200 then env.getStatus else env.postStatus) = true := by
  simp only [runMain]
  repeat' split
  all_goals simp_all

theorem runMain_files_paths (env : Env) :
    (runMain env).files.map Prod.fst =
      if (runMain env).error = none then [outPath env.today] else [] := by
  simp only [runMain]
  repeat' split
  all_goals simp_all

/-- POST answered 204, GET answered 200, a one-row list payload. -/
def env204 : Env := { postStatus := 204, getStatus := 200, body := some (Json.arr [Json.obj [("a", Json.int 1)]]), openpyxlAvailable := true, today := "2026-10-12" }

/-- A 200 POST whose payload nests one row under the `"data"` key, with
openpyxl missing at startup. -/
def envNoOpenpyxl : Env := { postStatus := 200, getStatus := 0, body := some (Json.obj [("data", Json.arr [Json.obj [("symbol", Json.str "ABC")]])]), openpyxlAvailable := false, today := "2026-10-12" }

/-- A 200 POST whose payload `{"foo": "bar"}` holds no sequence. -/
def envNoRows : Env := { postStatus := 200, getStatus := 0, body := some (Json.obj [("foo", Json.str "bar")]), openpyxlAvailable := true, today := "2026-10-12" }

/-- A plain successful run: 200 POST, one-row list payload. -/
def envOk : Env := { postStatus := 200, getStatus := 0, body := some (Json.arr [Json.obj [("a", Json.int 1)]]), openpyxlAvailable := true, today := "2026-10-12" }

/-- A successful run through the fallback: POST 404, GET 200. -/
def envOkViaGet : Env := { postStatus := 404, getStatus := 200, body := some (Json.arr [Json.obj [("a", Json.int 1)]]), openpyxlAvailable := true, today := "2026-10-12" }

/-- Counterexample to claim C2 as stated: with the POST answered 204 — a
success status that is not 200 — the code does issue the fallback GET, so
"a fallback GET is issued if and only if the POST status is not a success
status" fails at this input.  (Under the alternative reading of "success"
as exactly 200, the other biconditional fails instead: a final status of
204 raises nothing although it is not 200.) -/
theorem fetch_retry_counterexample :
    ¬ (((runMain env204).requests.length = 2) ↔ isSuccessStatus 204 = false) := by
  decide

/-- Claim C2 amended: `main` always issues the POST to
`https://www.cse.lk/api/detailedTrades` with an empty body and a 30-second
timeout; the fallback GET to the same URL is issued if and only if the
POST status is not exactly 200; after the fallback, a TransportError is
raised if and only if the final response status lies in the HTTP error
classes, `400 ≤ s < 600` (`raise_for_status` semantics). -/
theorem fetch_retry_amended (env : Env) :
    postRequest = { method := "POST", url := "https://www.cse.lk/api/detailedTrades",
                    body := some "", timeout := 30 } ∧
    getRequest = { method := "GET", url := "https://www.cse.lk/api/detailedTrades",
                   body := none, timeout := 30 } ∧
    (runMain env).requests =
      (if env.postStatus = 200 then [postRequest] else [postRequest, getRequest]) ∧
    ((runMain env).error = some RunError.transport ↔
      (400 ≤ (if env.postStatus = 200 then env.postStatus else env.getStatus) ∧
        (if env.postStatus = 200 then env.postStatus else env.getStatus) < 600)) := by
  refine ⟨rfl, rfl, ?_, ?_⟩
  · rw [runMain_requests]
    by_cases hp : env.postStatus = 200 <;> simp [hp]
  · rw [runMain_error_transport]
    by_cases hp : env.postStatus = 200 <;> simp [hp, raiseForStatus]

/-- Claim C3 is contradicted by the code: when openpyxl is unavailable the
construction phase itself fails — `df.to_excel(out_path, index=False,
engine="openpyxl")` demands the missing library — so no spreadsheet file
is produced at all; the graceful `if openpyxl is None: return` guard
inside `_prettify_excel`, which would merely skip formatting as the claim
expects, is never reached.  Concretely: a run with a one-row payload and
openpyxl missing ends in the ImportError with no file written, even
though the formatting pass itself degrades to the identity exactly as
claimed (third conjunct). -/
theorem missing_openpyxl_fails_run :
    (runMain envNoOpenpyxl).error = some RunError.importError ∧
    (runMain envNoOpenpyxl).files = [] ∧
    (∀ (ws : Worksheet) (pcols : List String), prettify_excel false ws pcols = ws) :=
  ⟨rfl, rfl, fun _ _ => rfl⟩

/-- Claim C5: when the final response is no error status but the extractor
finds no row sequence in the parsed payload, the run fails with the
DataShapeError and no file is written (the construction phase is never
reached). -/
theorem no_rows_fails_before_write (env : Env) (payload : Json)
    (hbody : env.body = some payload)
    (hnoraise : raiseForStatus
      (if env.postStatus != 200 then env.getStatus else env.postStatus) = false)
    (hempty : extract_rows payload preferred_keys = []) :
    (runMain env).error = some RunError.noRows ∧ (runMain env).files = [] := by
  have h1 : ¬ (raiseForStatus
      (if env.postStatus != 200 then env.getStatus else env.postStatus) = true) := by
    rw [hnoraise]
    exact Bool.false_ne_true
  simp only [runMain]
  rw [if_neg h1, hbody]
  simp [hempty]

/-- Witness for C5: the payload `{"foo": "bar"}` (no sequence anywhere)
with a 200 POST ends in the DataShapeError and creates no file. -/
theorem no_rows_fails_before_write_witness :
    (runMain envNoRows).error = some RunError.noRows ∧ (runMain envNoRows).files = [] :=
  no_rows_fails_before_write envNoRows (Json.obj [("foo", Json.str "bar")]) rfl
    (by decide) rfl

/-- Claim C9: every run creates the `data` directory first (idempotently,
`exist_ok=True`), and a successful run leaves exactly one file on disk, at
`data/cse_detailed_trades_<today>.xlsx`; the path depends only on the
date, so a second successful run on the same day writes the same path,
overwriting the first file. -/
theorem single_dated_output_file (env env2 : Env)
    (h : (runMain env).error = none) (h2 : (runMain env2).error = none)
    (hday : env2.today = env.today) :
    (runMain env).dirsCreated = ["data"] ∧
    (runMain env).files.map Prod.fst =
      ["data/cse_detailed_trades_" ++ env.today ++ ".xlsx"] ∧
    (runMain env2).files.map Prod.fst = (runMain env).files.map Prod.fst := by
  refine ⟨runMain_dirsCreated env, ?_, ?_⟩
  · rw [runMain_files_paths, if_pos h]
    rfl
  · rw [runMain_files_paths, runMain_files_paths, if_pos h, if_pos h2, hday]

/-- Witness for C9: two successful same-day runs (the second through the
GET fallback) both write the single dated path. -/
theorem single_dated_output_file_witness :
    (runMain envOk).dirsCreated = ["data"] ∧
    (runMain envOk).files.map Prod.fst =
      ["data/cse_detailed_trades_" ++ "2026-10-12" ++ ".xlsx"] ∧
    (runMain envOkViaGet).files.map Prod.fst = (runMain envOk).files.map Prod.fst :=
  single_dated_output_file envOk envOkViaGet (by decide) (by decide) rfl

end XlsDownload
